import Mathlib

/-!
Shallow embedding of the chat-widget middleware backend: session store,
sweep scheduler (cleanupJob), socket event handlers (socketManager),
responder client (n8nService) and the REST heartbeat route.
Timestamps are integers (milliseconds); identifiers are naturals.
-/

namespace Chat

/-- Session lifecycle states, from the prisma enum chat_session_status. -/
inductive chat_session_status
  | ACTIVE
  | INACTIVE
  | CLOSED
deriving DecidableEq

/-- Message author roles, from the prisma enum message_role. -/
inductive message_role
  | USER
  | BOT
  | SYSTEM
deriving DecidableEq

/-- A row of the chatSession table. -/
structure ChatSession where
  id : Nat
  visitor_id : Nat
  status : chat_session_status
  last_active_at : Int
  created_at : Int
deriving DecidableEq

/-- A row of the chatMessage table. -/
structure ChatMessage where
  id : Nat
  session_id : Nat
  role : message_role
  content : String
  created_at : Int
deriving DecidableEq

/-- The session store: both prisma tables.  Rows appear in insertion order. -/
structure Store where
  sessions : List ChatSession
  messages : List ChatMessage
deriving DecidableEq

/-- prisma.chatSession.findUnique on the id column. -/
def findUniqueSession (db : Store) (sid : Nat) : Option ChatSession :=
  db.sessions.find? (fun s => s.id == sid)

/-- All messages of one session, in insertion order. -/
def sessionMessages (db : Store) (sid : Nat) : List ChatMessage :=
  db.messages.filter (fun m => m.session_id == sid)

/-- prisma.chatSession.update on the unique id column: updates the matching
row, or fails (prisma throws P2025) when no row has this id. -/
def updateSessionById (db : Store) (sid : Nat) (f : ChatSession → ChatSession) : Option Store :=
  if db.sessions.any (fun s => s.id == sid)
  then some { db with sessions := db.sessions.map (fun s => if s.id == sid then f s else s) }
  else none

/-- First bulk update of the cleanup tick, applied to one row: where
status = ACTIVE and last_active_at < inactiveThreshold, set INACTIVE. -/
def sweepInactiveStep (inactiveThreshold : Int) (s : ChatSession) : ChatSession :=
  if s.status = chat_session_status.ACTIVE ∧ s.last_active_at < inactiveThreshold
  then { s with status := chat_session_status.INACTIVE }
  else s

/-- Second bulk update of the cleanup tick, applied to one row: where
status ∈ [ACTIVE, INACTIVE] and last_active_at < closeThreshold, set CLOSED. -/
def sweepCloseStep (closeThreshold : Int) (s : ChatSession) : ChatSession :=
  if (s.status = chat_session_status.ACTIVE ∨ s.status = chat_session_status.INACTIVE)
      ∧ s.last_active_at < closeThreshold
  then { s with status := chat_session_status.CLOSED }
  else s

/-- One tick of the cleanup job: both updateMany calls evaluated against the
thresholds derived from a single now taken at the start of the tick
(inactiveThreshold = now - heartbeatTimeoutSec*1000,
closeThreshold = now - sessionCloseMin*60*1000). -/
def cleanupTick (heartbeatTimeoutSec sessionCloseMin : Int) (now : Int) (db : Store) : Store :=
  let inactiveThreshold := now - heartbeatTimeoutSec * 1000
  let closeThreshold := now - sessionCloseMin * 60 * 1000
  let afterInactive := db.sessions.map (sweepInactiveStep inactiveThreshold)
  let afterClose := afterInactive.map (sweepCloseStep closeThreshold)
  { db with sessions := afterClose }

/-- The effect of one tick on a single session row (second update composed
with the first). -/
def tickSession (heartbeatTimeoutSec sessionCloseMin : Int) (now : Int) (s : ChatSession) : ChatSession :=
  sweepCloseStep (now - sessionCloseMin * 60 * 1000)
    (sweepInactiveStep (now - heartbeatTimeoutSec * 1000) s)

/-- A JavaScript number as produced by Number(env ...): either NaN or a value. -/
inductive JsNumber
  | nan
  | num (v : Int)
deriving DecidableEq

/-- startCleanupJob: checks Number.isNaN on both configured values; when either
is NaN it logs and returns a stopped no-op task (modelled as none), otherwise
it schedules the cleanup tick (modelled as some of the tick function). -/
def startCleanupJob (heartbeatTimeoutSeconds sessionCloseMinutes : JsNumber) :
    Option (Int → Store → Store) :=
  match heartbeatTimeoutSeconds, sessionCloseMinutes with
  | JsNumber.num hb, JsNumber.num cm => some (cleanupTick hb cm)
  | _, _ => none

/-- JSON values, the shape of an axios response body. -/
inductive Json
  | null
  | bool (b : Bool)
  | num (n : Int)
  | str (s : String)
  | arr (xs : List Json)
  | obj (fields : List (String × Json))

/-- JavaScript property access data?.field: a value on objects that carry the
key, undefined (none) on everything else. -/
def jsGet (v : Json) (key : String) : Option Json :=
  match v with
  | Json.obj fields => (fields.find? (fun kv => kv.1 == key)).map (fun kv => kv.2)
  | _ => none

/-- The nullish coalescing operator a ?? b: b when a is undefined or null. -/
def nullishOr (v : Option Json) (fallback : Json) : Json :=
  match v with
  | none => fallback
  | some Json.null => fallback
  | some x => x

mutual

/-- JSON.stringify (compact form, no whitespace). -/
def stringify : Json → String
  | Json.null => "null"
  | Json.bool true => "true"
  | Json.bool false => "false"
  | Json.num n => toString n
  | Json.str s => "\"" ++ s ++ "\""
  | Json.arr xs => "[" ++ stringifyArr xs ++ "]"
  | Json.obj fs => "\x7b" ++ stringifyObj fs ++ "\x7d"

/-- Comma-joined serialization of array elements. -/
def stringifyArr : List Json → String
  | [] => ""
  | [x] => stringify x
  | x :: xs => stringify x ++ "," ++ stringifyArr xs

/-- Comma-joined serialization of object fields. -/
def stringifyObj : List (String × Json) → String
  | [] => ""
  | [kv] => "\"" ++ kv.1 ++ "\":" ++ stringify kv.2
  | kv :: fs => "\"" ++ kv.1 ++ "\":" ++ stringify kv.2 ++ "," ++ stringifyObj fs

end

/-- Whether a JSON value is a string (typeof data === string). -/
def isStr : Json → Bool
  | Json.str _ => true
  | _ => false

/-- The fixed apology returned by the responder client on any failure. -/
def apologyString : String :=
  "I'm having trouble connecting to my brain right now. Please try again shortly."

/-- sendToN8n, given the outcome of the axios POST (error on timeout, network
failure or thrown exception; ok with the response body otherwise): on error it
returns the apology string; on success it evaluates
data?.output ?? data?.text ?? data?.message ?? (typeof data === string ? data
: JSON.stringify(data)) and returns that value. -/
def sendToN8n (outcome : Except String Json) : Json :=
  match outcome with
  | Except.error _ => Json.str apologyString
  | Except.ok data =>
      nullishOr (jsGet data "output")
        (nullishOr (jsGet data "text")
          (nullishOr (jsGet data "message")
            (if isStr data then data else Json.str (stringify data))))

/-- The DTO shape sent to clients for one message (createdAt kept as the
timestamp it renders). -/
structure ChatMessageDto where
  id : Nat
  sender : message_role
  content : String
  createdAt : Int
deriving DecidableEq

/-- mapMessage: the row-to-DTO projection. -/
def mapMessage (m : ChatMessage) : ChatMessageDto :=
  { id := m.id, sender := m.role, content := m.content, createdAt := m.created_at }

/-- The ascending creation-time order used by every history query. -/
def byCreatedAt (a b : ChatMessage) : Prop :=
  a.created_at ≤ b.created_at

instance : DecidableRel byCreatedAt :=
  fun a b => inferInstanceAs (Decidable (a.created_at ≤ b.created_at))

/-- getHistory: findMany where session_id, orderBy created_at asc, take limit,
mapped through mapMessage.  The source default for limit is 100. -/
def getHistory (db : Store) (sid : Nat) (limit : Nat) : List ChatMessageDto :=
  (((sessionMessages db sid).insertionSort byCreatedAt).take limit).map mapMessage

/-- findFirst orderBy created_at desc: the latest-created element of a list
(first of the list on ties). -/
def latestCreated : List ChatSession → Option ChatSession
  | [] => none
  | s :: rest =>
      match latestCreated rest with
      | none => some s
      | some t => if t.created_at > s.created_at then some t else some s

/-- prisma.chatSession.findFirst where visitor_id and status not CLOSED,
orderBy created_at desc. -/
def findFirstNonClosedByVisitor (db : Store) (visitorId : Nat) : Option ChatSession :=
  latestCreated (db.sessions.filter
    (fun s => s.visitor_id == visitorId && s.status ≠ chat_session_status.CLOSED))

/-- ensureSession: reuse the requested session when it exists and is not
CLOSED; else reuse the most recently created non-closed session of the
visitor; else create a fresh ACTIVE session (freshId and now model the id and
timestamps the store assigns).  Returns the resolved session and the store. -/
def ensureSession (db : Store) (visitorId : Nat) (requestedSessionId : Option Nat)
    (freshId : Nat) (now : Int) : ChatSession × Store :=
  let fallback :=
    match findFirstNonClosedByVisitor db visitorId with
    | some existing => (existing, db)
    | none =>
        let created : ChatSession :=
          { id := freshId, visitor_id := visitorId, status := chat_session_status.ACTIVE,
            last_active_at := now, created_at := now }
        (created, { db with sessions := db.sessions ++ [created] })
  match requestedSessionId with
  | some rid =>
      match findUniqueSession db rid with
      | some s =>
          if s.status ≠ chat_session_status.CLOSED then (s, db) else fallback
      | none => fallback
  | none => fallback

/-- Per-connection socket.data. -/
structure SocketData where
  sessionId : Option Nat
  visitorId : Option Nat
deriving DecidableEq

/-- Inbound message event payload. -/
structure IncomingMessagePayload where
  sessionId : Option Nat
  content : Option String
  metadata : Option Json

/-- Outbound server-to-client events. -/
inductive ServerEvent
  | session (sessionId : Nat) (visitorId : Nat) (status : chat_session_status)
  | history (msgs : List ChatMessageDto)
  | message (m : ChatMessageDto)
  | status (s : chat_session_status)
  | error (msg : String)
  | sessionClosed (sessionId : Nat) (msg : String)

/-- An emission: either to the originating socket only, or broadcast to the
room named by a session id (every connection joined to that session). -/
inductive Emit
  | toSocket (e : ServerEvent)
  | toRoom (room : Nat) (e : ServerEvent)

/-- String.prototype.trim: strip whitespace from both ends. -/
def jsTrim (s : String) : String :=
  ⟨((s.data.dropWhile Char.isWhitespace).reverse.dropWhile Char.isWhitespace).reverse⟩

/-- payload.sessionId ?? socket.data.sessionId. -/
def resolveSessionId (payloadSessionId : Option Nat) (sock : SocketData) : Option Nat :=
  match payloadSessionId with
  | some sid => some sid
  | none => sock.sessionId

/-- One entry of the history window forwarded to the n8n webhook. -/
structure N8nHistoryEntry where
  sender : message_role
  content : String
  createdAt : Int
deriving DecidableEq

/-- The payload handed to the responder client. -/
structure N8nPayload where
  sessionId : Nat
  message : String
  history : List N8nHistoryEntry
  metadata : Option Json

/-- The store after the USER message is persisted (chatMessage.create with
role USER) and the session row is marked ACTIVE with refreshed last-activity
(chatSession.update). -/
def persistUserMessage (db : Store) (sid : Nat) (content : String) (nowU : Int)
    (userMsgId : Nat) : Store :=
  let userMessage : ChatMessage :=
    { id := userMsgId, session_id := sid, role := message_role.USER,
      content := content, created_at := nowU }
  let db1 := { db with messages := db.messages ++ [userMessage] }
  let touched := db1.sessions.map (fun t =>
    if t.id == sid
    then { t with last_active_at := nowU, status := chat_session_status.ACTIVE }
    else t)
  { db1 with sessions := touched }

/-- The payload handed to sendToN8n: session id, the new content, the
50-message history window of the session mapped to history entries, and the
metadata passed through. -/
def brainPayload (db2 : Store) (sid : Nat) (content : String) (metadata : Option Json) :
    N8nPayload :=
  { sessionId := sid, message := content,
    history := (getHistory db2 sid 50).map
      (fun m => { sender := m.sender, content := m.content, createdAt := m.createdAt }),
    metadata := metadata }

/-- Result of running the message-event handler: updated store, updated
socket state, emissions in order, and the payload handed to the responder
client if the call was made. -/
structure MessageResult where
  db : Store
  sock : SocketData
  events : List Emit
  brainRequest : Option N8nPayload

/-- The socket message handler: resolve the session id (error event when
none), trim the content (silent drop when empty), fetch the session (status
CLOSED event when missing or CLOSED), persist the USER message, broadcast it
to the session room, mark the session ACTIVE with refreshed last-activity,
fetch the 50-message history window, call the responder, persist and
broadcast the BOT message.  respond models sendToN8n (total, returns a
string); nowU and nowB are the store timestamps of the two inserts. -/
def handleMessageEvent (respond : N8nPayload → String) (payload : IncomingMessagePayload)
    (sock : SocketData) (db : Store) (nowU nowB : Int) (userMsgId botMsgId : Nat) :
    MessageResult :=
  match resolveSessionId payload.sessionId sock with
  | none => ⟨db, sock, [Emit.toSocket (ServerEvent.error "Session not established yet.")], none⟩
  | some sid =>
      let content := jsTrim (payload.content.getD "")
      if content = "" then ⟨db, sock, [], none⟩
      else
        match findUniqueSession db sid with
        | none => ⟨db, sock, [Emit.toSocket (ServerEvent.status chat_session_status.CLOSED)], none⟩
        | some s =>
            if s.status = chat_session_status.CLOSED then
              ⟨db, sock, [Emit.toSocket (ServerEvent.status chat_session_status.CLOSED)], none⟩
            else
              let userMessage : ChatMessage :=
                { id := userMsgId, session_id := sid, role := message_role.USER,
                  content := content, created_at := nowU }
              let db2 := persistUserMessage db sid content nowU userMsgId
              let req := brainPayload db2 sid content payload.metadata
              let aiReply := respond req
              let aiMessage : ChatMessage :=
                { id := botMsgId, session_id := sid, role := message_role.BOT,
                  content := aiReply, created_at := nowB }
              let db3 := { db2 with messages := db2.messages ++ [aiMessage] }
              ⟨db3, sock,
                [Emit.toRoom sid (ServerEvent.message (mapMessage userMessage)),
                 Emit.toRoom sid (ServerEvent.message (mapMessage aiMessage))],
                some req⟩

/-- The socket heartbeat handler: no-op without a resolvable id; otherwise
update the session to ACTIVE with refreshed last-activity, regardless of its
current status; a failed update (missing id) is only logged. -/
def handleHeartbeat (payloadSessionId : Option Nat) (sock : SocketData) (db : Store)
    (now : Int) : Store × List Emit :=
  match resolveSessionId payloadSessionId sock with
  | none => (db, [])
  | some sid =>
      match updateSessionById db sid
          (fun s => { s with last_active_at := now, status := chat_session_status.ACTIVE }) with
      | some db1 => (db1, [])
      | none => (db, [])

/-- The socket endSession handler: no-op without a resolvable id; otherwise
set the session CLOSED with refreshed last-activity, append the SYSTEM
message, emit sessionClosed to the originating socket and clear the binding.
When the update fails (missing id) the catch emits an error event and the
binding is kept. -/
def handleEndSession (payloadSessionId : Option Nat) (sock : SocketData) (db : Store)
    (now : Int) (sysMsgId : Nat) : Store × SocketData × List Emit :=
  match resolveSessionId payloadSessionId sock with
  | none => (db, sock, [])
  | some sid =>
      match updateSessionById db sid
          (fun s => { s with status := chat_session_status.CLOSED, last_active_at := now }) with
      | none =>
          (db, sock, [Emit.toSocket (ServerEvent.error "Failed to end session. Please try again.")])
      | some db1 =>
          let sysMessage : ChatMessage :=
            { id := sysMsgId, session_id := sid, role := message_role.SYSTEM,
              content := "Chat session ended by user.", created_at := now }
          ({ db1 with messages := db1.messages ++ [sysMessage] },
           { sock with sessionId := none },
           [Emit.toSocket (ServerEvent.sessionClosed sid
              "Session ended successfully. You can start a new conversation.")])

/-- handleConnection: resolve the session, bind it to the socket, emit the
session event, emit the history replay (default limit 100) when non-empty,
then mark the session ACTIVE with refreshed last-activity. -/
def handleConnection (db : Store) (visitorId : Nat) (requestedSessionId : Option Nat)
    (freshSid : Nat) (now : Int) : Store × SocketData × List Emit :=
  let resolved := ensureSession db visitorId requestedSessionId freshSid now
  let session := resolved.1
  let db1 := resolved.2
  let sock : SocketData := { sessionId := some session.id, visitorId := some visitorId }
  let history := getHistory db1 session.id 100
  let events :=
    [Emit.toSocket (ServerEvent.session session.id visitorId session.status)]
      ++ (if history.isEmpty then [] else [Emit.toSocket (ServerEvent.history history)])
  let touched := db1.sessions.map (fun t =>
    if t.id == session.id
    then { t with last_active_at := now, status := chat_session_status.ACTIVE }
    else t)
  let db2 := { db1 with sessions := touched }
  (db2, sock, events)

/-- PATCH /api/sessions/:id/heartbeat: update last_active_at only; the Bool
records whether the update succeeded (500 response otherwise). -/
def restHeartbeat (db : Store) (sid : Nat) (now : Int) : Store × Bool :=
  match updateSessionById db sid (fun s => { s with last_active_at := now }) with
  | some db1 => (db1, true)
  | none => (db, false)

/-- Whether an optional JSON value is skipped by the nullish coalescing
operator (undefined or null). -/
def isNullish (v : Option Json) : Prop :=
  v = none ∨ v = some Json.null

lemma nullishOr_of_isNullish {v : Option Json} (h : isNullish v) (fb : Json) :
    nullishOr v fb = fb := by
  rcases h with h | h <;> subst h <;> rfl

lemma nullishOr_of_ne_null {v : Json} (h : v ≠ Json.null) (fb : Json) :
    nullishOr (some v) fb = v := by
  cases v <;> first | rfl | exact absurd rfl h

lemma tickSession_idem (hb cm now : Int) (s : ChatSession) :
    tickSession hb cm now (tickSession hb cm now s) = tickSession hb cm now s := by
  rcases s with ⟨i, v, st, la, ca⟩
  cases st <;>
    simp only [tickSession, sweepInactiveStep, sweepCloseStep] <;>
    split_ifs <;> simp_all

lemma cleanupTick_sessions (hb cm now : Int) (db : Store) :
    (cleanupTick hb cm now db).sessions = db.sessions.map (tickSession hb cm now) := by
  simp only [cleanupTick, List.map_map]
  rfl

lemma cleanupTick_messages (hb cm now : Int) (db : Store) :
    (cleanupTick hb cm now db).messages = db.messages :=
  rfl

lemma store_ext_eq {a b : Store} (hs : a.sessions = b.sessions)
    (hm : a.messages = b.messages) : a = b := by
  cases a
  cases b
  cases hs
  cases hm
  rfl

lemma cleanupTick_idem (hb cm now : Int) (db : Store) :
    cleanupTick hb cm now (cleanupTick hb cm now db) = cleanupTick hb cm now db := by
  refine store_ext_eq ?_ rfl
  rw [cleanupTick_sessions, cleanupTick_sessions, List.map_map]
  refine List.map_congr_left (fun s _ => ?_)
  simpa [Function.comp] using tickSession_idem hb cm now s

/-- C2: every scheduler tick evaluates both bulk updates against thresholds
derived from one now taken at the start of the tick; the tick acts on each
session row independently: an ACTIVE session older than the inactivity
timeout (but not past the close threshold) becomes INACTIVE, an ACTIVE or
INACTIVE session older than the close threshold becomes CLOSED within that
same tick (directly from ACTIVE), a CLOSED session matches neither predicate
and is unchanged, and repeating the tick on the unchanged store changes
nothing. -/
theorem C2_tick_thresholds_and_idempotence (hb cm now : Int) (db : Store) (s : ChatSession) :
    (cleanupTick hb cm now db).sessions = db.sessions.map (tickSession hb cm now) ∧
    (s.status = chat_session_status.CLOSED → tickSession hb cm now s = s) ∧
    ((s.status = chat_session_status.ACTIVE ∨ s.status = chat_session_status.INACTIVE) →
      s.last_active_at < now - cm * 60 * 1000 →
      tickSession hb cm now s = { s with status := chat_session_status.CLOSED }) ∧
    (s.status = chat_session_status.ACTIVE →
      s.last_active_at < now - hb * 1000 →
      ¬ s.last_active_at < now - cm * 60 * 1000 →
      tickSession hb cm now s = { s with status := chat_session_status.INACTIVE }) ∧
    cleanupTick hb cm now (cleanupTick hb cm now db) = cleanupTick hb cm now db := by
  refine ⟨cleanupTick_sessions hb cm now db, ?_, ?_, ?_, cleanupTick_idem hb cm now db⟩
  · intro hst
    rcases s with ⟨i, v, st, la, ca⟩
    subst hst
    simp [tickSession, sweepInactiveStep, sweepCloseStep]
  · rintro (hst | hst) hold <;>
      rcases s with ⟨i, v, st, la, ca⟩ <;> subst hst <;>
      simp only [tickSession, sweepInactiveStep, sweepCloseStep] <;>
      split_ifs <;> simp_all
  · intro hst hin hcl
    rcases s with ⟨i, v, st, la, ca⟩
    subst hst
    simp only [tickSession, sweepInactiveStep, sweepCloseStep]
    split_ifs <;> simp_all

/-- Witness for C2: a session aged past both thresholds moves directly from
ACTIVE to CLOSED in a single tick. -/
theorem C2_witness :
    tickSession 120 15 1000000 (ChatSession.mk 1 7 chat_session_status.ACTIVE 0 0)
      = { ChatSession.mk 1 7 chat_session_status.ACTIVE 0 0 with
            status := chat_session_status.CLOSED } :=
  (C2_tick_thresholds_and_idempotence 120 15 1000000 (Store.mk [] [])
      (ChatSession.mk 1 7 chat_session_status.ACTIVE 0 0)).2.2.1 (Or.inl rfl) (by norm_num)

/-- C3 counterexample: with a negative heartbeat timeout (not a valid
non-negative number) startCleanupJob still schedules the active tick, and
that tick executes a sweep update: the inactivity threshold lies in the
future, so a session active this very instant is swept to INACTIVE. -/
theorem C3_counterexample :
    startCleanupJob (JsNumber.num (-5)) (JsNumber.num 15) = some (cleanupTick (-5) 15) ∧
    (cleanupTick (-5) 15 1000
        (Store.mk [ChatSession.mk 1 7 chat_session_status.ACTIVE 1000 0] [])).sessions
      = [ChatSession.mk 1 7 chat_session_status.INACTIVE 1000 0] :=
  ⟨rfl, by decide⟩

/-- C3 amended: startCleanupJob refuses to run (returns the stopped no-op
task, modelled as none) exactly when one of the two configured values is NaN;
every numeric configuration, negative values included, schedules the active
cleanup tick. -/
theorem C3_amended_nan_check_only (hb cm : JsNumber) :
    (startCleanupJob hb cm = none ↔ hb = JsNumber.nan ∨ cm = JsNumber.nan) ∧
    (∀ h c : Int, startCleanupJob (JsNumber.num h) (JsNumber.num c) = some (cleanupTick h c)) := by
  refine ⟨?_, fun h c => rfl⟩
  cases hb <;> cases cm <;> simp [startCleanupJob]

/-- C8 counterexample: when the response carries a non-string value in the
output field, sendToN8n returns that value verbatim, so its result is not a
string. -/
theorem C8_counterexample :
    sendToN8n (Except.ok (Json.obj [("output", Json.num 42)])) = Json.num 42 ∧
    isStr (sendToN8n (Except.ok (Json.obj [("output", Json.num 42)]))) = false :=
  ⟨rfl, rfl⟩

/-- C8 amended: sendToN8n never raises: on failure it returns the fixed
apology string; on success it returns the first non-null value among the
fields output, text, message in that order, verbatim even when that value is
not a string; when all are absent or null it falls back to the response
itself if it is a string and to its JSON serialization otherwise. -/
theorem C8_amended_responder_contract (e : String) (d : Json) :
    sendToN8n (Except.error e) = Json.str apologyString ∧
    (∀ v, jsGet d "output" = some v → v ≠ Json.null → sendToN8n (Except.ok d) = v) ∧
    (∀ v, isNullish (jsGet d "output") → jsGet d "text" = some v → v ≠ Json.null →
      sendToN8n (Except.ok d) = v) ∧
    (∀ v, isNullish (jsGet d "output") → isNullish (jsGet d "text") →
      jsGet d "message" = some v → v ≠ Json.null → sendToN8n (Except.ok d) = v) ∧
    (isNullish (jsGet d "output") → isNullish (jsGet d "text") →
      isNullish (jsGet d "message") →
      (∀ s, d = Json.str s → sendToN8n (Except.ok d) = d) ∧
      (isStr d = false → sendToN8n (Except.ok d) = Json.str (stringify d))) := by
  refine ⟨rfl, ?_, ?_, ?_, ?_⟩
  · intro v hv hne
    simp [sendToN8n, hv, nullishOr_of_ne_null hne]
  · intro v h0 hv hne
    simp [sendToN8n, nullishOr_of_isNullish h0, hv, nullishOr_of_ne_null hne]
  · intro v h0 h1 hv hne
    simp [sendToN8n, nullishOr_of_isNullish h0, nullishOr_of_isNullish h1, hv,
      nullishOr_of_ne_null hne]
  · intro h0 h1 h2
    constructor
    · intro s hs
      subst hs
      simp [sendToN8n, nullishOr_of_isNullish h0, nullishOr_of_isNullish h1,
        nullishOr_of_isNullish h2, isStr]
    · intro hns
      simp [sendToN8n, nullishOr_of_isNullish h0, nullishOr_of_isNullish h1,
        nullishOr_of_isNullish h2, hns]

/-- Witness for C8: the text field is extracted when output is null. -/
theorem C8_witness :
    sendToN8n (Except.ok (Json.obj [("output", Json.null), ("text", Json.str "hello")]))
      = Json.str "hello" :=
  (C8_amended_responder_contract "x"
      (Json.obj [("output", Json.null), ("text", Json.str "hello")])).2.2.1
    (Json.str "hello") (Or.inr rfl) rfl (fun h => Json.noConfusion h)

lemma latestCreated_cons_ne_none (s : ChatSession) (rest : List ChatSession) :
    latestCreated (s :: rest) ≠ none := by
  simp only [latestCreated]
  cases latestCreated rest with
  | none => simp
  | some t => by_cases hc : t.created_at > s.created_at <;> simp [hc]

lemma latestCreated_mem {l : List ChatSession} {t : ChatSession}
    (h : latestCreated l = some t) : t ∈ l := by
  induction l generalizing t with
  | nil => simp [latestCreated] at h
  | cons s rest ih =>
      simp only [latestCreated] at h
      cases hr : latestCreated rest with
      | none =>
          simp only [hr] at h
          cases h
          exact List.mem_cons_self _ _
      | some u =>
          simp only [hr] at h
          by_cases hc : u.created_at > s.created_at
          · simp only [if_pos hc] at h
            cases h
            exact List.mem_cons_of_mem _ (ih hr)
          · simp only [if_neg hc] at h
            cases h
            exact List.mem_cons_self _ _

lemma latestCreated_max {l : List ChatSession} {t : ChatSession}
    (h : latestCreated l = some t) : ∀ u ∈ l, u.created_at ≤ t.created_at := by
  induction l generalizing t with
  | nil => simp [latestCreated] at h
  | cons s rest ih =>
      simp only [latestCreated] at h
      cases hr : latestCreated rest with
      | none =>
          simp only [hr] at h
          cases h
          have hrest : rest = [] := by
            cases rest with
            | nil => rfl
            | cons a r => exact absurd hr (latestCreated_cons_ne_none a r)
          subst hrest
          intro u hu
          rcases List.mem_cons.mp hu with rfl | hu
          · exact le_refl _
          · simp at hu
      | some u =>
          simp only [hr] at h
          by_cases hc : u.created_at > s.created_at
          · simp only [if_pos hc] at h
            cases h
            intro w hw
            rcases List.mem_cons.mp hw with rfl | hw
            · exact le_of_lt hc
            · exact ih hr w hw
          · simp only [if_neg hc] at h
            cases h
            intro w hw
            rcases List.mem_cons.mp hw with rfl | hw
            · exact le_refl _
            · exact le_trans (ih hr w hw) (not_lt.mp hc)

lemma findFirst_spec {db : Store} {vid : Nat} {t : ChatSession}
    (h : findFirstNonClosedByVisitor db vid = some t) :
    t ∈ db.sessions ∧ t.visitor_id = vid ∧ t.status ≠ chat_session_status.CLOSED ∧
    ∀ u ∈ db.sessions, u.visitor_id = vid → u.status ≠ chat_session_status.CLOSED →
      u.created_at ≤ t.created_at := by
  have hmem := latestCreated_mem h
  have hmax := latestCreated_max h
  rw [List.mem_filter] at hmem
  have hp := hmem.2
  simp only [Bool.and_eq_true, beq_iff_eq, decide_eq_true_eq] at hp
  refine ⟨hmem.1, hp.1, hp.2, fun u hu hv hs => ?_⟩
  refine hmax u ?_
  rw [List.mem_filter]
  simp only [Bool.and_eq_true, beq_iff_eq, decide_eq_true_eq]
  exact ⟨hu, hv, hs⟩

lemma find?_eq_some_id {l : List ChatSession} {rid : Nat} {s : ChatSession}
    (h : l.find? (fun x => x.id == rid) = some s) : s ∈ l ∧ s.id = rid := by
  refine ⟨List.mem_of_find?_eq_some h, ?_⟩
  have := List.find?_some h
  simpa using this

/-- C5: session resolution precedence on connect: a claimed id resolving to a
non-CLOSED session is reused as that exact session; otherwise the most
recently created non-closed session of the visitor is reused when one exists;
otherwise a fresh ACTIVE session is created; and a claimed id resolving to a
CLOSED session is never reused (the resolved session has a different id). -/
theorem C5_session_resolution (db : Store) (vid : Nat) (req : Option Nat) (freshId : Nat)
    (now : Int) :
    (∀ rid s, req = some rid → findUniqueSession db rid = some s →
      s.status ≠ chat_session_status.CLOSED →
      ensureSession db vid req freshId now = (s, db)) ∧
    (∀ t, (req = none ∨ ∃ rid, req = some rid ∧
        (findUniqueSession db rid = none ∨
          ∃ s, findUniqueSession db rid = some s ∧ s.status = chat_session_status.CLOSED)) →
      findFirstNonClosedByVisitor db vid = some t →
      ensureSession db vid req freshId now = (t, db) ∧
      t ∈ db.sessions ∧ t.visitor_id = vid ∧ t.status ≠ chat_session_status.CLOSED ∧
      ∀ u ∈ db.sessions, u.visitor_id = vid → u.status ≠ chat_session_status.CLOSED →
        u.created_at ≤ t.created_at) ∧
    ((req = none ∨ ∃ rid, req = some rid ∧
        (findUniqueSession db rid = none ∨
          ∃ s, findUniqueSession db rid = some s ∧ s.status = chat_session_status.CLOSED)) →
      findFirstNonClosedByVisitor db vid = none →
      ensureSession db vid req freshId now =
        (ChatSession.mk freshId vid chat_session_status.ACTIVE now now,
         { db with sessions :=
            db.sessions ++ [ChatSession.mk freshId vid chat_session_status.ACTIVE now now] })) ∧
    (∀ rid s, req = some rid → findUniqueSession db rid = some s →
      s.status = chat_session_status.CLOSED →
      (db.sessions.map (fun x => x.id)).Nodup →
      freshId ∉ db.sessions.map (fun x => x.id) →
      (ensureSession db vid req freshId now).1.id ≠ rid) := by
  refine ⟨?_, ?_, ?_, ?_⟩
  · intro rid s hreq hfind hstatus
    subst hreq
    simp [ensureSession, hfind, hstatus]
  · intro t hreq hfirst
    have hspec := findFirst_spec hfirst
    refine ⟨?_, hspec.1, hspec.2.1, hspec.2.2.1, hspec.2.2.2⟩
    rcases hreq with rfl | ⟨rid, rfl, hcase⟩
    · simp [ensureSession, hfirst]
    · rcases hcase with hnone | ⟨s, hfind, hclosed⟩
      · simp [ensureSession, hnone, hfirst]
      · simp [ensureSession, hfind, hclosed, hfirst]
  · intro hreq hfirst
    rcases hreq with rfl | ⟨rid, rfl, hcase⟩
    · simp [ensureSession, hfirst]
    · rcases hcase with hnone | ⟨s, hfind, hclosed⟩
      · simp [ensureSession, hnone, hfirst]
      · simp [ensureSession, hfind, hclosed, hfirst]
  · intro rid s hreq hfind hclosed hnodup hfresh
    subst hreq
    have hsid := find?_eq_some_id hfind
    cases hfirst : findFirstNonClosedByVisitor db vid with
    | some t =>
        have hspec := findFirst_spec hfirst
        have hres : (ensureSession db vid (some rid) freshId now).1 = t := by
          simp [ensureSession, hfind, hclosed, hfirst]
        rw [hres]
        intro hid
        have : t = s := List.inj_on_of_nodup_map hnodup hspec.1 hsid.1
          (by rw [hid, hsid.2])
        rw [this] at hspec
        exact hspec.2.2.1 hclosed
    | none =>
        have hres : (ensureSession db vid (some rid) freshId now).1.id = freshId := by
          simp [ensureSession, hfind, hclosed, hfirst]
        rw [hres]
        intro hid
        subst hid
        exact hfresh (by simpa [hsid.2] using List.mem_map_of_mem (fun x => x.id) hsid.1)

/-- Witness for C5: a non-CLOSED claimed session id is reused exactly. -/
theorem C5_witness :
    ensureSession (Store.mk [ChatSession.mk 1 7 chat_session_status.INACTIVE 5 5] []) 7
        (some 1) 99 50
      = (ChatSession.mk 1 7 chat_session_status.INACTIVE 5 5,
         Store.mk [ChatSession.mk 1 7 chat_session_status.INACTIVE 5 5] []) :=
  (C5_session_resolution (Store.mk [ChatSession.mk 1 7 chat_session_status.INACTIVE 5 5] [])
      7 (some 1) 99 50).1 1 (ChatSession.mk 1 7 chat_session_status.INACTIVE 5 5)
    rfl (by decide) (by decide)

/-- C6: message-event validation: with no resolvable session id, exactly one
error event is emitted and the store is unchanged; with a resolvable id but
content trimming to empty, the event is silently dropped with no emission and
no store change; with a resolvable id and non-empty trimmed content, a
session missing from the store or with status CLOSED yields exactly one
status CLOSED event and no store change. -/
theorem C6_message_validation (respond : N8nPayload → String) (payload : IncomingMessagePayload)
    (sock : SocketData) (db : Store) (nowU nowB : Int) (uid bid : Nat) :
    (resolveSessionId payload.sessionId sock = none →
      handleMessageEvent respond payload sock db nowU nowB uid bid =
        ⟨db, sock, [Emit.toSocket (ServerEvent.error "Session not established yet.")], none⟩) ∧
    (∀ sid, resolveSessionId payload.sessionId sock = some sid →
      jsTrim (payload.content.getD "") = "" →
      handleMessageEvent respond payload sock db nowU nowB uid bid = ⟨db, sock, [], none⟩) ∧
    (∀ sid, resolveSessionId payload.sessionId sock = some sid →
      jsTrim (payload.content.getD "") ≠ "" →
      (findUniqueSession db sid = none ∨
        ∃ s, findUniqueSession db sid = some s ∧ s.status = chat_session_status.CLOSED) →
      handleMessageEvent respond payload sock db nowU nowB uid bid =
        ⟨db, sock, [Emit.toSocket (ServerEvent.status chat_session_status.CLOSED)], none⟩) := by
  refine ⟨?_, ?_, ?_⟩
  · intro hres
    simp [handleMessageEvent, hres]
  · intro sid hres hempty
    simp [handleMessageEvent, hres, hempty]
  · intro sid hres hne hcase
    rcases hcase with hnone | ⟨s, hfind, hclosed⟩
    · simp [handleMessageEvent, hres, hne, hnone]
    · simp [handleMessageEvent, hres, hne, hfind, hclosed]

/-- Witness for C6: a message event with no payload id and no bound id yields
exactly the one error event. -/
theorem C6_witness :
    handleMessageEvent (fun _ => "ok")
        (IncomingMessagePayload.mk none (some "hi") none) (SocketData.mk none none)
        (Store.mk [] []) 0 1 10 11
      = ⟨Store.mk [] [], SocketData.mk none none,
         [Emit.toSocket (ServerEvent.error "Session not established yet.")], none⟩ :=
  (C6_message_validation (fun _ => "ok")
      (IncomingMessagePayload.mk none (some "hi") none) (SocketData.mk none none)
      (Store.mk [] []) 0 1 10 11).1 rfl

lemma find?_map_update (l : List ChatSession) (sid : Nat) (f : ChatSession → ChatSession)
    (hf : ∀ t, (f t).id = t.id) :
    (l.map (fun t => if t.id == sid then f t else t)).find? (fun t => t.id == sid)
      = (l.find? (fun t => t.id == sid)).map f := by
  induction l with
  | nil => rfl
  | cons a l ih =>
      simp only [List.map_cons]
      by_cases ha : a.id = sid
      · have hba : (a.id == sid) = true := beq_iff_eq.mpr ha
        have hfa : ((f a).id == sid) = true := beq_iff_eq.mpr (by rw [hf a]; exact ha)
        have h1 : List.find? (fun t => t.id == sid)
            (f a :: List.map (fun t => if t.id == sid then f t else t) l)
            = some (f a) := List.find?_cons_of_pos _ hfa
        have h2 : List.find? (fun t => t.id == sid) (a :: l) = some a :=
          List.find?_cons_of_pos _ hba
        rw [if_pos hba, h1, h2]
        rfl
      · have hba : ¬ (a.id == sid) = true := by simp [ha]
        have h1 : List.find? (fun t => t.id == sid)
            (a :: List.map (fun t => if t.id == sid then f t else t) l)
            = List.find? (fun t => t.id == sid)
                (List.map (fun t => if t.id == sid then f t else t) l) :=
          List.find?_cons_of_neg _ hba
        have h2 : List.find? (fun t => t.id == sid) (a :: l)
            = List.find? (fun t => t.id == sid) l :=
          List.find?_cons_of_neg _ hba
        rw [if_neg hba, h1, h2, ih]

lemma updateSessionById_of_found {db : Store} {sid : Nat} {s : ChatSession}
    (hfind : findUniqueSession db sid = some s) (f : ChatSession → ChatSession) :
    updateSessionById db sid f
      = some { db with sessions := db.sessions.map (fun t => if t.id == sid then f t else t) } := by
  have hs := find?_eq_some_id hfind
  have hany : db.sessions.any (fun t => t.id == sid) = true :=
    List.any_eq_true.mpr ⟨s, hs.1, beq_iff_eq.mpr hs.2⟩
  simp [updateSessionById, hany]

lemma findUnique_after_update {db : Store} {sid : Nat} {s : ChatSession}
    (hfind : findUniqueSession db sid = some s) (f : ChatSession → ChatSession)
    (hf : ∀ t, (f t).id = t.id) :
    findUniqueSession
        { db with sessions := db.sessions.map (fun t => if t.id == sid then f t else t) } sid
      = some (f s) := by
  simp only [findUniqueSession] at hfind ⊢
  rw [find?_map_update db.sessions sid f hf, hfind]
  rfl

/-- C9: endSession with a resolvable session id that exists in the store sets
the session CLOSED with refreshed last-activity, appends the SYSTEM message
marking termination, emits sessionClosed to the originating connection only,
clears the binding, and a following message event on the same connection with
no sessionId override is rejected as unresolvable (one error event, no store
change); with no resolvable id, endSession changes nothing and emits
nothing. -/
theorem C9_end_session (payloadSid : Option Nat) (sock : SocketData) (db : Store) (now : Int)
    (sysMsgId : Nat) :
    (resolveSessionId payloadSid sock = none →
      handleEndSession payloadSid sock db now sysMsgId = (db, sock, [])) ∧
    (∀ sid s, resolveSessionId payloadSid sock = some sid →
      findUniqueSession db sid = some s →
      findUniqueSession (handleEndSession payloadSid sock db now sysMsgId).1 sid
          = some { s with status := chat_session_status.CLOSED, last_active_at := now } ∧
      (handleEndSession payloadSid sock db now sysMsgId).1.messages
          = db.messages
            ++ [ChatMessage.mk sysMsgId sid message_role.SYSTEM "Chat session ended by user." now] ∧
      (handleEndSession payloadSid sock db now sysMsgId).2.2
          = [Emit.toSocket (ServerEvent.sessionClosed sid
              "Session ended successfully. You can start a new conversation.")] ∧
      (handleEndSession payloadSid sock db now sysMsgId).2.1 = { sock with sessionId := none } ∧
      ∀ (respond : N8nPayload → String) (payload : IncomingMessagePayload)
          (nowU nowB : Int) (uid bid : Nat), payload.sessionId = none →
        handleMessageEvent respond payload (handleEndSession payloadSid sock db now sysMsgId).2.1
            (handleEndSession payloadSid sock db now sysMsgId).1 nowU nowB uid bid
          = ⟨(handleEndSession payloadSid sock db now sysMsgId).1,
             (handleEndSession payloadSid sock db now sysMsgId).2.1,
             [Emit.toSocket (ServerEvent.error "Session not established yet.")], none⟩) := by
  constructor
  · intro hres
    simp [handleEndSession, hres]
  · intro sid s hres hfind
    have hupd := updateSessionById_of_found hfind
      (fun t => { t with status := chat_session_status.CLOSED, last_active_at := now })
    have hr : handleEndSession payloadSid sock db now sysMsgId
        = ({ db with
              sessions := db.sessions.map (fun t => if t.id == sid
                then { t with status := chat_session_status.CLOSED, last_active_at := now }
                else t),
              messages := db.messages
                ++ [ChatMessage.mk sysMsgId sid message_role.SYSTEM
                      "Chat session ended by user." now] },
           { sock with sessionId := none },
           [Emit.toSocket (ServerEvent.sessionClosed sid
              "Session ended successfully. You can start a new conversation.")]) := by
      simp [handleEndSession, hres, hupd]
    refine ⟨?_, ?_, ?_, ?_, ?_⟩
    · rw [hr]
      exact findUnique_after_update hfind _ (fun t => rfl)
    · rw [hr]
    · rw [hr]
    · rw [hr]
    · intro respond payload nowU nowB uid bid hp
      rw [hr]
      simp [handleMessageEvent, resolveSessionId, hp]

/-- Witness for C9: ending a live session closes it with refreshed
last-activity. -/
theorem C9_witness :
    findUniqueSession (handleEndSession (some 1) (SocketData.mk (some 1) (some 7))
        (Store.mk [ChatSession.mk 1 7 chat_session_status.ACTIVE 5 0] []) 50 100).1 1
      = some (ChatSession.mk 1 7 chat_session_status.CLOSED 50 0) :=
  ((C9_end_session (some 1) (SocketData.mk (some 1) (some 7))
      (Store.mk [ChatSession.mk 1 7 chat_session_status.ACTIVE 5 0] []) 50 100).2
    1 (ChatSession.mk 1 7 chat_session_status.ACTIVE 5 0) rfl (by decide)).1

/-- Messages listed in strictly ascending creation order. -/
def strictlyAscending (l : List ChatMessage) : Prop :=
  List.Pairwise (fun a b => a.created_at < b.created_at) l

instance (l : List ChatMessage) : Decidable (strictlyAscending l) :=
  inferInstanceAs (Decidable (List.Pairwise _ l))

/-- C7: a message event on an existing non-CLOSED session with non-empty
trimmed content persists exactly one USER message and then exactly one BOT
message, in that order; each of the two is broadcast as a message event to
the room of that session id (every associated connection, not only the
sender); the session is marked ACTIVE with last-activity refreshed to the
USER insert time; and when the prior history is strictly ascending and older
than the new timestamps, both messages appear at the end of the ascending
history. -/
theorem C7_message_success_path (respond : N8nPayload → String)
    (payload : IncomingMessagePayload) (sock : SocketData) (db : Store) (nowU nowB : Int)
    (uid bid : Nat) (sid : Nat) (s : ChatSession)
    (hres : resolveSessionId payload.sessionId sock = some sid)
    (hne : jsTrim (payload.content.getD "") ≠ "")
    (hfind : findUniqueSession db sid = some s)
    (hscl : s.status ≠ chat_session_status.CLOSED) :
    ∀ (c : String) (userMsg botMsg : ChatMessage) (req : N8nPayload),
      c = jsTrim (payload.content.getD "") →
      userMsg = ChatMessage.mk uid sid message_role.USER c nowU →
      req = brainPayload (persistUserMessage db sid c nowU uid) sid c payload.metadata →
      botMsg = ChatMessage.mk bid sid message_role.BOT (respond req) nowB →
      (handleMessageEvent respond payload sock db nowU nowB uid bid).db.messages
          = db.messages ++ [userMsg, botMsg] ∧
      (handleMessageEvent respond payload sock db nowU nowB uid bid).events
          = [Emit.toRoom sid (ServerEvent.message (mapMessage userMsg)),
             Emit.toRoom sid (ServerEvent.message (mapMessage botMsg))] ∧
      (handleMessageEvent respond payload sock db nowU nowB uid bid).sock = sock ∧
      findUniqueSession (handleMessageEvent respond payload sock db nowU nowB uid bid).db sid
          = some { s with status := chat_session_status.ACTIVE, last_active_at := nowU } ∧
      sessionMessages (handleMessageEvent respond payload sock db nowU nowB uid bid).db sid
          = sessionMessages db sid ++ [userMsg, botMsg] ∧
      (strictlyAscending (sessionMessages db sid) →
        (∀ m ∈ sessionMessages db sid, m.created_at < nowU) → nowU < nowB →
        strictlyAscending
          (sessionMessages (handleMessageEvent respond payload sock db nowU nowB uid bid).db sid)) := by
  intro c userMsg botMsg req hc huser hreq hbot
  subst hc
  subst huser
  subst hreq
  subst hbot
  have hr : handleMessageEvent respond payload sock db nowU nowB uid bid
      = ⟨{ persistUserMessage db sid (jsTrim (payload.content.getD "")) nowU uid with
            messages :=
              (persistUserMessage db sid (jsTrim (payload.content.getD "")) nowU uid).messages
                ++ [ChatMessage.mk bid sid message_role.BOT
                      (respond (brainPayload
                        (persistUserMessage db sid (jsTrim (payload.content.getD "")) nowU uid)
                        sid (jsTrim (payload.content.getD "")) payload.metadata)) nowB] },
         sock,
         [Emit.toRoom sid (ServerEvent.message (mapMessage
            (ChatMessage.mk uid sid message_role.USER (jsTrim (payload.content.getD "")) nowU))),
          Emit.toRoom sid (ServerEvent.message (mapMessage
            (ChatMessage.mk bid sid message_role.BOT
              (respond (brainPayload
                (persistUserMessage db sid (jsTrim (payload.content.getD "")) nowU uid)
                sid (jsTrim (payload.content.getD "")) payload.metadata)) nowB)))],
         some (brainPayload
            (persistUserMessage db sid (jsTrim (payload.content.getD "")) nowU uid)
            sid (jsTrim (payload.content.getD "")) payload.metadata)⟩ := by
    simp [handleMessageEvent, hres, hne, hfind, hscl]
  have hmsgs : (handleMessageEvent respond payload sock db nowU nowB uid bid).db.messages
      = db.messages
        ++ [ChatMessage.mk uid sid message_role.USER (jsTrim (payload.content.getD "")) nowU,
            ChatMessage.mk bid sid message_role.BOT
              (respond (brainPayload
                (persistUserMessage db sid (jsTrim (payload.content.getD "")) nowU uid)
                sid (jsTrim (payload.content.getD "")) payload.metadata)) nowB] := by
    rw [hr]
    simp [persistUserMessage]
  have hsess : (handleMessageEvent respond payload sock db nowU nowB uid bid).db.sessions
      = db.sessions.map (fun t => if t.id == sid
          then { t with last_active_at := nowU, status := chat_session_status.ACTIVE }
          else t) := by
    rw [hr]
    simp [persistUserMessage]
  have h5 : sessionMessages (handleMessageEvent respond payload sock db nowU nowB uid bid).db sid
      = sessionMessages db sid
        ++ [ChatMessage.mk uid sid message_role.USER (jsTrim (payload.content.getD "")) nowU,
            ChatMessage.mk bid sid message_role.BOT
              (respond (brainPayload
                (persistUserMessage db sid (jsTrim (payload.content.getD "")) nowU uid)
                sid (jsTrim (payload.content.getD "")) payload.metadata)) nowB] := by
    simp only [sessionMessages, hmsgs]
    simp [List.filter_append]
  refine ⟨hmsgs, ?_, ?_, ?_, h5, ?_⟩
  · rw [hr]
  · rw [hr]
  · have hfu : findUniqueSession
        { db with sessions := db.sessions.map (fun t => if t.id == sid
            then { t with last_active_at := nowU, status := chat_session_status.ACTIVE }
            else t) } sid
        = some { s with last_active_at := nowU, status := chat_session_status.ACTIVE } :=
      findUnique_after_update hfind _ (fun t => rfl)
    simp only [findUniqueSession, hsess]
    simpa [findUniqueSession] using hfu
  · intro hasc hold hUB
    rw [strictlyAscending] at hasc ⊢
    rw [h5, List.pairwise_append]
    refine ⟨hasc, ?_, ?_⟩
    · simp only [List.pairwise_cons, List.mem_singleton]
      exact ⟨fun b hb => by rw [hb]; exact hUB, by simp⟩
    · intro a ha x hx
      rcases List.mem_cons.mp hx with rfl | hx
      · exact hold a ha
      · rcases List.mem_singleton.mp hx with rfl
        exact lt_trans (hold a ha) hUB

/-- Witness for C7: on a fresh session the user turn and the bot reply are
persisted in order. -/
theorem C7_witness :
    (handleMessageEvent (fun _ => "ok") (IncomingMessagePayload.mk (some 1) (some " hi ") none)
        (SocketData.mk none none)
        (Store.mk [ChatSession.mk 1 7 chat_session_status.ACTIVE 0 0] []) 10 11 100 101).db.messages
      = [ChatMessage.mk 100 1 message_role.USER "hi" 10,
         ChatMessage.mk 101 1 message_role.BOT "ok" 11] :=
  (C7_message_success_path (fun _ => "ok")
      (IncomingMessagePayload.mk (some 1) (some " hi ") none) (SocketData.mk none none)
      (Store.mk [ChatSession.mk 1 7 chat_session_status.ACTIVE 0 0] []) 10 11 100 101 1
      (ChatSession.mk 1 7 chat_session_status.ACTIVE 0 0) rfl (by decide) (by decide) (by decide)
      "hi" (ChatMessage.mk 100 1 message_role.USER "hi" 10)
      (ChatMessage.mk 101 1 message_role.BOT "ok" 11)
      (brainPayload (persistUserMessage
          (Store.mk [ChatSession.mk 1 7 chat_session_status.ACTIVE 0 0] []) 1 "hi" 10 100)
        1 "hi" none)
      (by decide) rfl rfl rfl).1

lemma getHistory_of_ascending {db : Store} {sid : Nat}
    (h : strictlyAscending (sessionMessages db sid)) (limit : Nat) :
    getHistory db sid limit = ((sessionMessages db sid).take limit).map mapMessage := by
  unfold getHistory
  have hsorted : List.Sorted byCreatedAt (sessionMessages db sid) :=
    List.Pairwise.imp (fun hab => le_of_lt hab) h
  rw [List.Sorted.insertionSort_eq hsorted]

lemma ascending_take_drop {l : List ChatMessage} (h : strictlyAscending l) (n : Nat) :
    ∀ a ∈ l.take n, ∀ b ∈ l.drop n, a.created_at < b.created_at := by
  have hl : List.Pairwise (fun a b => a.created_at < b.created_at) (l.take n ++ l.drop n) := by
    rw [List.take_append_drop]
    exact h
  exact (List.pairwise_append.mp hl).2.2

lemma ensureSession_messages (db : Store) (vid : Nat) (req : Option Nat) (freshId : Nat)
    (now : Int) : (ensureSession db vid req freshId now).2.messages = db.messages := by
  unfold ensureSession
  cases req with
  | none =>
      cases hf : findFirstNonClosedByVisitor db vid <;> simp [hf]
  | some rid =>
      cases hq : findUniqueSession db rid with
      | none => cases hf : findFirstNonClosedByVisitor db vid <;> simp [hq, hf]
      | some s =>
          by_cases hs : s.status ≠ chat_session_status.CLOSED <;>
            cases hf : findFirstNonClosedByVisitor db vid <;> simp [hq, hs, hf]

lemma getHistory_congr_messages {a b : Store} (h : a.messages = b.messages) (sid : Nat)
    (limit : Nat) : getHistory a sid limit = getHistory b sid limit := by
  simp [getHistory, sessionMessages, h]

/-- C10: the history replay delivered on connect is bounded to 100 messages
and, when the session is stored in ascending creation order, consists of the
first 100 of that order, i.e. the 100 earliest messages; every delivered
message is older than every omitted one (the most recent are the ones
omitted); and handleConnection emits exactly that getHistory result after the
session event, when non-empty. -/
theorem C10_replay_is_earliest_100 (db : Store) (sid : Nat)
    (hasc : strictlyAscending (sessionMessages db sid)) :
    (getHistory db sid 100).length ≤ 100 ∧
    getHistory db sid 100 = ((sessionMessages db sid).take 100).map mapMessage ∧
    (∀ a ∈ (sessionMessages db sid).take 100, ∀ b ∈ (sessionMessages db sid).drop 100,
      a.created_at < b.created_at) ∧
    (∀ (vid : Nat) (req : Option Nat) (freshSid : Nat) (now : Int),
      (ensureSession db vid req freshSid now).1.id = sid →
      (handleConnection db vid req freshSid now).2.2
        = [Emit.toSocket (ServerEvent.session sid vid
              (ensureSession db vid req freshSid now).1.status)]
          ++ (if (getHistory db sid 100).isEmpty then []
              else [Emit.toSocket (ServerEvent.history (getHistory db sid 100))])) := by
  refine ⟨?_, getHistory_of_ascending hasc 100, ascending_take_drop hasc 100, ?_⟩
  · rw [getHistory_of_ascending hasc 100]
    rw [List.length_map]
    exact le_trans (List.length_take_le 100 _) (le_refl _)
  · intro vid req freshSid now hid
    have hmsg := ensureSession_messages db vid req freshSid now
    have hist : getHistory (ensureSession db vid req freshSid now).2 sid 100
        = getHistory db sid 100 := getHistory_congr_messages hmsg sid 100
    simp only [handleConnection, hid, hist]

/-- Witness for C10: two stored messages are both replayed, in ascending
order. -/
theorem C10_witness :
    getHistory (Store.mk [ChatSession.mk 1 7 chat_session_status.ACTIVE 0 0]
        [ChatMessage.mk 10 1 message_role.USER "a" 1, ChatMessage.mk 11 1 message_role.BOT "b" 2])
        1 100
      = [ChatMessageDto.mk 10 message_role.USER "a" 1, ChatMessageDto.mk 11 message_role.BOT "b" 2] := by
  have h := (C10_replay_is_earliest_100 (Store.mk [ChatSession.mk 1 7 chat_session_status.ACTIVE 0 0]
      [ChatMessage.mk 10 1 message_role.USER "a" 1, ChatMessage.mk 11 1 message_role.BOT "b" 2])
      1 (by decide)).2.1
  rw [h]
  decide

/-- C4 counterexample: on a session holding 51 messages (creation times 0 to
50), the window handed to the responder for a new message is the earliest 50
(creation times 0 to 49), although at query time the session also holds the
newer messages with creation times 50 and 60 (the just-persisted USER turn):
the window is not the 50 most recent messages. -/
theorem C4_counterexample :
    ((handleMessageEvent (fun _ => "ok") (IncomingMessagePayload.mk (some 1) (some "new") none)
        (SocketData.mk none none)
        (Store.mk [ChatSession.mk 1 7 chat_session_status.ACTIVE 0 0]
          ((List.range 51).map (fun i => ChatMessage.mk i 1 message_role.USER "m" (Int.ofNat i))))
        60 61 100 101).brainRequest.map (fun r => r.history.map (fun e => e.createdAt)))
      = some ((List.range 50).map (fun i => Int.ofNat i)) ∧
    (sessionMessages (persistUserMessage
        (Store.mk [ChatSession.mk 1 7 chat_session_status.ACTIVE 0 0]
          ((List.range 51).map (fun i => ChatMessage.mk i 1 message_role.USER "m" (Int.ofNat i))))
        1 "new" 60 100) 1).map (fun m => m.created_at)
      = (List.range 51).map (fun i => Int.ofNat i) ++ [60] := by
  constructor
  · decide
  · decide

/-- C4 amended: the history window handed to the responder client is the
leading window: the earliest (at most) 50 messages of the session in
ascending creation order, taken after the USER message is persisted; when the
session holds more than 50 messages the most recent ones are omitted (every
message in the window is older than every message left out). -/
theorem C4_amended_leading_window (respond : N8nPayload → String)
    (payload : IncomingMessagePayload) (sock : SocketData) (db : Store) (nowU nowB : Int)
    (uid bid : Nat) (sid : Nat) (s : ChatSession)
    (hres : resolveSessionId payload.sessionId sock = some sid)
    (hne : jsTrim (payload.content.getD "") ≠ "")
    (hfind : findUniqueSession db sid = some s)
    (hscl : s.status ≠ chat_session_status.CLOSED)
    (hasc : strictlyAscending (sessionMessages
      (persistUserMessage db sid (jsTrim (payload.content.getD "")) nowU uid) sid)) :
    (handleMessageEvent respond payload sock db nowU nowB uid bid).brainRequest
      = some (brainPayload (persistUserMessage db sid (jsTrim (payload.content.getD "")) nowU uid)
          sid (jsTrim (payload.content.getD "")) payload.metadata) ∧
    (brainPayload (persistUserMessage db sid (jsTrim (payload.content.getD "")) nowU uid)
        sid (jsTrim (payload.content.getD "")) payload.metadata).history
      = ((sessionMessages (persistUserMessage db sid (jsTrim (payload.content.getD "")) nowU uid)
          sid).take 50).map
          (fun m => N8nHistoryEntry.mk m.role m.content m.created_at) ∧
    (∀ a ∈ (sessionMessages (persistUserMessage db sid (jsTrim (payload.content.getD "")) nowU uid)
        sid).take 50,
      ∀ b ∈ (sessionMessages (persistUserMessage db sid (jsTrim (payload.content.getD "")) nowU uid)
        sid).drop 50,
      a.created_at < b.created_at) := by
  refine ⟨?_, ?_, ascending_take_drop hasc 50⟩
  · simp [handleMessageEvent, hres, hne, hfind, hscl]
  · simp only [brainPayload, getHistory_of_ascending hasc 50, List.map_map]
    rfl

/-- Witness for C4 amended: with a single prior message the window holds it
and the new USER turn, in ascending order. -/
theorem C4_amended_witness :
    (brainPayload (persistUserMessage
        (Store.mk [ChatSession.mk 1 7 chat_session_status.ACTIVE 0 0]
          [ChatMessage.mk 10 1 message_role.USER "a" 1])
        1 "hi" 10 100) 1 "hi" none).history
      = [N8nHistoryEntry.mk message_role.USER "a" 1, N8nHistoryEntry.mk message_role.USER "hi" 10] := by
  have h := (C4_amended_leading_window (fun _ => "ok")
      (IncomingMessagePayload.mk (some 1) (some "hi") none) (SocketData.mk none none)
      (Store.mk [ChatSession.mk 1 7 chat_session_status.ACTIVE 0 0]
        [ChatMessage.mk 10 1 message_role.USER "a" 1]) 10 11 100 101 1
      (ChatSession.mk 1 7 chat_session_status.ACTIVE 0 0) rfl (by decide) (by decide) (by decide)
      (by decide)).2.1
  exact h.trans (by decide)

lemma tickSession_of_closed (hb cm now : Int) {s : ChatSession}
    (h : s.status = chat_session_status.CLOSED) : tickSession hb cm now s = s := by
  rcases s with ⟨i, v, st, la, ca⟩
  subst h
  simp [tickSession, sweepInactiveStep, sweepCloseStep]

/-- C1 counterexample: a socket heartbeat on a CLOSED session rewrites both
its status (back to ACTIVE) and its last-activity timestamp, so CLOSED is not
terminal under heartbeats. -/
theorem C1_counterexample :
    (handleHeartbeat (some 1) (SocketData.mk none none)
        (Store.mk [ChatSession.mk 1 7 chat_session_status.CLOSED 0 0] []) 99).1
      = Store.mk [ChatSession.mk 1 7 chat_session_status.ACTIVE 99 0] [] := by
  decide

/-- C1 amended: CLOSED is terminal only for the incoming-message handler and
the scheduler tick, which change neither the status nor the last-activity of
a CLOSED session; a socket heartbeat on a CLOSED session resets it to ACTIVE
with refreshed last-activity, the REST heartbeat refreshes its last-activity
keeping its status, and endSession keeps it CLOSED but refreshes its
last-activity. -/
theorem C1_amended_closed_not_terminal (db : Store) (now : Int) :
    (∀ (respond : N8nPayload → String) (payload : IncomingMessagePayload) (sock : SocketData)
        (nowU nowB : Int) (uid bid sid : Nat) (s : ChatSession),
      resolveSessionId payload.sessionId sock = some sid →
      findUniqueSession db sid = some s → s.status = chat_session_status.CLOSED →
      (handleMessageEvent respond payload sock db nowU nowB uid bid).db = db) ∧
    (∀ (hb cm : Int) (s : ChatSession), s.status = chat_session_status.CLOSED →
      tickSession hb cm now s = s) ∧
    (∀ (payloadSid : Option Nat) (sock : SocketData) (sid : Nat) (s : ChatSession),
      resolveSessionId payloadSid sock = some sid →
      findUniqueSession db sid = some s → s.status = chat_session_status.CLOSED →
      findUniqueSession (handleHeartbeat payloadSid sock db now).1 sid
        = some { s with last_active_at := now, status := chat_session_status.ACTIVE }) ∧
    (∀ (sid : Nat) (s : ChatSession), findUniqueSession db sid = some s →
      findUniqueSession (restHeartbeat db sid now).1 sid
        = some { s with last_active_at := now }) ∧
    (∀ (payloadSid : Option Nat) (sock : SocketData) (sid : Nat) (s : ChatSession)
        (sysMsgId : Nat),
      resolveSessionId payloadSid sock = some sid →
      findUniqueSession db sid = some s →
      findUniqueSession (handleEndSession payloadSid sock db now sysMsgId).1 sid
        = some { s with status := chat_session_status.CLOSED, last_active_at := now }) := by
  refine ⟨?_, ?_, ?_, ?_, ?_⟩
  · intro respond payload sock nowU nowB uid bid sid s hres hfind hclosed
    by_cases hne : jsTrim (payload.content.getD "") = "" <;>
      simp [handleMessageEvent, hres, hne, hfind, hclosed]
  · intro hb cm s h
    exact tickSession_of_closed hb cm now h
  · intro payloadSid sock sid s hres hfind hclosed
    have hupd := updateSessionById_of_found hfind
      (fun t => { t with last_active_at := now, status := chat_session_status.ACTIVE })
    simp only [handleHeartbeat, hres, hupd]
    exact findUnique_after_update hfind _ (fun t => rfl)
  · intro sid s hfind
    have hupd := updateSessionById_of_found hfind (fun t => { t with last_active_at := now })
    simp only [restHeartbeat, hupd]
    exact findUnique_after_update hfind _ (fun t => rfl)
  · intro payloadSid sock sid s sysMsgId hres hfind
    have hupd := updateSessionById_of_found hfind
      (fun t => { t with status := chat_session_status.CLOSED, last_active_at := now })
    simp only [handleEndSession, hres, hupd]
    have h := findUnique_after_update hfind
      (fun t => { t with status := chat_session_status.CLOSED, last_active_at := now })
      (fun t => rfl)
    simpa [findUniqueSession] using h

/-- Witness for C1 amended: the heartbeat resurrection observed concretely. -/
theorem C1_witness :
    findUniqueSession (handleHeartbeat (some 1) (SocketData.mk none none)
        (Store.mk [ChatSession.mk 1 7 chat_session_status.CLOSED 0 0] []) 99).1 1
      = some (ChatSession.mk 1 7 chat_session_status.ACTIVE 99 0) :=
  (C1_amended_closed_not_terminal
      (Store.mk [ChatSession.mk 1 7 chat_session_status.CLOSED 0 0] []) 99).2.2.1
    (some 1) (SocketData.mk none none) 1 (ChatSession.mk 1 7 chat_session_status.CLOSED 0 0)
    rfl (by decide) rfl

end Chat
